import Mathlib

/-!
Verification of the pty-attached spawn sequence of `src/command.rs`.

The embedding makes syscall outcomes explicit: a "world" record says, for
each OS call the code performs, whether it succeeds or fails (and with
which errno).  Executions are modelled as pure Lean functions that return
the Rust function's result together with an event trace (one event per OS
call / diagnostic print, in program order) and, where descriptor ownership
matters, a kernel descriptor-table state.
-/

namespace PtyProcess

/-- Terminal size, as in `crate::pty::Size` (rows, columns). -/
structure Size where
  rows : Nat
  cols : Nat
deriving DecidableEq, Repr

/-- The crate error type as used by `src/command.rs`.
`CreatePty`, `Resize` and `OpenPts` are modelled from the spec (the pty
module is not part of the analysed source): the Pty Contract's creation,
resize and subordinate-handle operations fail with these kinds, the first
two named `PtyCreationError` / `ResizeError` by the spec.  `SpawnNix` is
the code's `Error::SpawnNix` (the spec's `DescriptorDuplicationError`,
carrying the OS errno of the failed `dup`), and `Spawn` is `Error::Spawn`
(the spec's `SpawnError`, wrapping the process-creation primitive's
failure). -/
inductive Error
  | CreatePty (errno : Nat)
  | Resize (errno : Nat)
  | OpenPts (errno : Nat)
  | SpawnNix (errno : Nat)
  | Spawn (errno : Nat)
deriving DecidableEq, Repr

/-- Equality of `Except` values is decidable when it is for their parts. -/
instance {E A : Type} [DecidableEq E] [DecidableEq A] :
    DecidableEq (Except E A) := fun a b =>
  match a, b with
  | .error x, .error y =>
      if h : x = y then .isTrue (congrArg Except.error h)
      else .isFalse (fun hc => h (by cases hc; rfl))
  | .ok x, .ok y =>
      if h : x = y then .isTrue (congrArg Except.ok h)
      else .isFalse (fun hc => h (by cases hc; rfl))
  | .error _, .ok _ => .isFalse (fun hc => by cases hc)
  | .ok _, .error _ => .isFalse (fun hc => by cases hc)

/-- Does an error come from a failed descriptor duplication? -/
def Error.isDup : Error → Bool
  | .SpawnNix _ => true
  | _ => false

/-- What a file descriptor refers to: the controlling (pt) side or the
subordinate (pts) side of the pty. -/
inductive Obj
  | ptDevice
  | ptsDevice
deriving DecidableEq, Repr

/-- The kernel's table of descriptors created by this library: a
fresh-descriptor counter and the list of open descriptors with their
referents.  (Descriptors of the ambient process are outside the model;
the table tracks exactly the descriptors the analysed code creates.) -/
structure FdState where
  next : Nat
  table : List (Nat × Obj)
deriving DecidableEq, Repr

/-- Allocate a fresh descriptor referring to `o`. -/
def FdState.alloc (s : FdState) (o : Obj) : Nat × FdState :=
  (s.next, ⟨s.next + 1, s.table ++ [(s.next, o)]⟩)

/-- Close a descriptor (drop it from the open table). -/
def FdState.closeFd (s : FdState) (fd : Nat) : FdState :=
  ⟨s.next, s.table.filter (fun p => p.1 != fd)⟩

/-- Referent of an open descriptor, if open. -/
def FdState.lookup (s : FdState) (fd : Nat) : Option Obj :=
  (s.table.find? (fun p => p.1 == fd)).map Prod.snd

/-- `dup(fd)`: a fresh descriptor referring to the same object as `fd`. -/
def FdState.dupFd (s : FdState) (fd : Nat) : Nat × FdState :=
  s.alloc ((s.lookup fd).getD Obj.ptDevice)

/-- The empty initial descriptor table. -/
def fd0 : FdState := ⟨0, []⟩

/-- Outcomes of the OS calls `setup_pty` performs: `none` = success,
`some e` = failure with errno `e`.  `dupNFail` is the outcome of the
`n`-th `nix::unistd::dup` call (0 = stdin, 1 = stdout, 2 = stderr). -/
structure SetupWorld where
  newFail : Option Nat
  resizeFail : Option Nat
  ptsFail : Option Nat
  dup0Fail : Option Nat
  dup1Fail : Option Nat
  dup2Fail : Option Nat
deriving DecidableEq, Repr

/-- Events of `setup_pty`, in program order. -/
inductive SEvent
  | create
  | resize (s : Size)
  | pts
  | dup (src : Nat)
deriving DecidableEq, Repr

/-- Result of `setup_pty`: the Rust return value
`(pty, pts, stdin, stdout, stderr)` (pty and pts by their raw
descriptors), the final descriptor table, and the event trace. -/
structure SetupOutcome where
  result : Except Error (Nat × Nat × Nat × Nat × Nat)
  fds : FdState
  trace : List SEvent
deriving DecidableEq, Repr

/-- The three `dup` calls of `setup_pty` (source lines 184-186) with the
early returns' drop semantics: on an early `?` return the locals `pts`
(a `File`) and `pty` are dropped, closing their descriptors, while the
already-duplicated raw descriptors (`stdin`, `stdout`) have no destructor
and stay open. -/
def setup_pty_dups (w : SetupWorld) (ptFd ptsFd : Nat) (s : FdState)
    (tr : List SEvent) : SetupOutcome :=
  match w.dup0Fail with
  | some e =>
      ⟨.error (.SpawnNix e), (s.closeFd ptsFd).closeFd ptFd, tr ++ [.dup ptsFd]⟩
  | none =>
  let (stdin, s1) := s.dupFd ptsFd
  match w.dup1Fail with
  | some e =>
      ⟨.error (.SpawnNix e), (s1.closeFd ptsFd).closeFd ptFd,
        tr ++ [.dup ptsFd, .dup ptsFd]⟩
  | none =>
  let (stdout, s2) := s1.dupFd ptsFd
  match w.dup2Fail with
  | some e =>
      ⟨.error (.SpawnNix e), (s2.closeFd ptsFd).closeFd ptFd,
        tr ++ [.dup ptsFd, .dup ptsFd, .dup ptsFd]⟩
  | none =>
  let (stderr, s3) := s2.dupFd ptsFd
  ⟨.ok (ptFd, ptsFd, stdin, stdout, stderr), s3,
    tr ++ [.dup ptsFd, .dup ptsFd, .dup ptsFd]⟩

/-- `pty.pts()` step of `setup_pty` (source line 181): obtain the
subordinate-side handle, then duplicate it three times.  On failure the
local `pty` is dropped, closing `ptFd`. -/
def setup_pty_pts (w : SetupWorld) (ptFd : Nat) (s : FdState)
    (tr : List SEvent) : SetupOutcome :=
  match w.ptsFail with
  | some e => ⟨.error (.OpenPts e), s.closeFd ptFd, tr ++ [.pts]⟩
  | none =>
  let (ptsFd, s1) := s.alloc .ptsDevice
  setup_pty_dups w ptFd ptsFd s1 (tr ++ [.pts])

/-- `setup_pty` (source lines 164-189): create the pty pair, apply the
size if one was supplied, obtain the subordinate handle, and duplicate it
for stdin/stdout/stderr.  Failures propagate via `?`; dropped locals
close their descriptors. -/
def setup_pty (w : SetupWorld) (size : Option Size) (s0 : FdState) :
    SetupOutcome :=
  match w.newFail with
  | some e => ⟨.error (.CreatePty e), s0, [.create]⟩
  | none =>
  let (ptFd, s1) := s0.alloc .ptDevice
  match size with
  | some sz =>
      match w.resizeFail with
      | some e => ⟨.error (.Resize e), s1.closeFd ptFd, [.create, .resize sz]⟩
      | none => setup_pty_pts w ptFd s1 [.create, .resize sz]
  | none => setup_pty_pts w ptFd s1 [.create]

/-- Number of `dup` calls recorded in a `setup_pty` trace. -/
def dupCount (tr : List SEvent) : Nat :=
  (tr.filter (fun ev => match ev with | .dup _ => true | _ => false)).length

/-- The data the pre-exec closure captures (source lines 48-55): the five
raw descriptor numbers, moved by value.  Nothing else is captured. -/
structure HookCapture where
  pt_fd : Nat
  pts_fd : Nat
  stdin : Nat
  stdout : Nat
  stderr : Nat
deriving DecidableEq, Repr

/-- A backend process builder, as `CommandImpl` exposes it: the three
standard-descriptor assignments and the registered pre-exec hook. -/
structure Builder where
  stdinCfg : Option Nat
  stdoutCfg : Option Nat
  stderrCfg : Option Nat
  preExec : Option HookCapture
deriving DecidableEq, Repr

/-- `CommandImpl::std_fds`: assign the builder's stdin/stdout/stderr. -/
def Builder.std_fds (b : Builder) (i o e : Nat) : Builder :=
  { b with stdinCfg := some i, stdoutCfg := some o, stderrCfg := some e }

/-- `CommandImpl::pre_exec_impl`: register the pre-exec hook (identified
by its captured descriptors, the only data the closure holds). -/
def Builder.pre_exec_impl (b : Builder) (cap : HookCapture) : Builder :=
  { b with preExec := some cap }

/-- The `Child` wrapper struct (source lines 93-96): owns the spawned
process handle and the pty. -/
structure Child (C P : Type) where
  child : C
  pty : P
deriving DecidableEq, Repr

/-- Outcomes of the OS interactions `spawn_pty` performs beyond
`setup_pty`: `spawnFail` is the outcome of `spawn_impl` (`none` =
success), `childId` the process handle a successful spawn returns. -/
structure SpawnWorld where
  setup : SetupWorld
  spawnFail : Option Nat
  childId : Nat

/-- Events of `spawn_pty` in the parent, in program order. -/
inductive PEvent
  | setupEv (ev : SEvent)
  | print (s : String)
  | stdFds (i o e : Nat)
  | registerPreExec
  | spawnCall
deriving DecidableEq, Repr

/-- Result of `spawn_pty`: the returned value, the builder's final state,
the final descriptor table, and the parent-side event trace. -/
structure SpawnOutcome where
  result : Except Error (Child Nat Nat)
  builder : Builder
  fds : FdState
  trace : List PEvent
deriving DecidableEq, Repr

/-- `spawn_pty` (source lines 40-89): run `setup_pty` (propagating its
failure with `?`), print "Setup pty", read the two raw descriptors, print
"Got fds", assign the three duplicates as the builder's stdio, register
the pre-exec closure (capturing the five descriptor numbers by value),
and call `spawn_impl`, wrapping its failure as `Error::Spawn`. -/
def spawn_pty (w : SpawnWorld) (b : Builder) (size : Option Size)
    (s0 : FdState) : SpawnOutcome :=
  match setup_pty w.setup size s0 with
  | ⟨.error e, s1, tr⟩ => ⟨.error e, b, s1, tr.map PEvent.setupEv⟩
  | ⟨.ok (ptFd, ptsFd, stdin, stdout, stderr), s1, tr⟩ =>
    let b1 := b.std_fds stdin stdout stderr
    let cap : HookCapture := ⟨ptFd, ptsFd, stdin, stdout, stderr⟩
    let b2 := b1.pre_exec_impl cap
    let tr2 := tr.map PEvent.setupEv ++
      [PEvent.print "Setup pty", PEvent.print "Got fds",
       PEvent.stdFds stdin stdout stderr, PEvent.registerPreExec,
       PEvent.spawnCall]
    match w.spawnFail with
    | some ioe => ⟨.error (.Spawn ioe), b2, s1, tr2⟩
    | none => ⟨.ok ⟨w.childId, ptFd⟩, b2, s1, tr2⟩

/-- Outcomes of the OS calls the pre-exec closure performs in the child:
`none` = success, `some e` = failure with errno `e`.  `closeFail` is
keyed by the descriptor being closed.  (For these syscalls the nix
wrappers fail only with `Error::Sys(errno)`, so `as_errno().unwrap()`
in the source always yields exactly this errno.) -/
structure ChildWorld where
  setsidFail : Option Nat
  scttyFail : Option Nat
  closeFail : Nat → Option Nat

/-- Events of the pre-exec closure, in program order. -/
inductive CEvent
  | print (s : String)
  | setsid
  | sctty (fd : Nat)
  | closeCall (fd : Nat)
deriving DecidableEq, Repr

/-- The pre-exec closure (source lines 55-80): print, `setsid()`,
`set_controlling_terminal(pts_fd)`, print, close `pt_fd`, `pts_fd`,
`stdin`, `stdout`, `stderr` in that order, print; every fallible call is
followed by `?`, so execution stops at the first failure and the closure
returns that call's errno. -/
def pre_exec (w : ChildWorld) (c : HookCapture) :
    Except Nat Unit × List CEvent :=
  let tr := [CEvent.print "Started pre-exec"]
  match w.setsidFail with
  | some e => (.error e, tr ++ [.setsid])
  | none =>
  let tr := tr ++ [CEvent.setsid]
  match w.scttyFail with
  | some e => (.error e, tr ++ [.sctty c.pts_fd])
  | none =>
  let tr := tr ++ [CEvent.sctty c.pts_fd, CEvent.print "Closing old fds"]
  match w.closeFail c.pt_fd with
  | some e => (.error e, tr ++ [.closeCall c.pt_fd])
  | none =>
  let tr := tr ++ [CEvent.closeCall c.pt_fd]
  match w.closeFail c.pts_fd with
  | some e => (.error e, tr ++ [.closeCall c.pts_fd])
  | none =>
  let tr := tr ++ [CEvent.closeCall c.pts_fd]
  match w.closeFail c.stdin with
  | some e => (.error e, tr ++ [.closeCall c.stdin])
  | none =>
  let tr := tr ++ [CEvent.closeCall c.stdin]
  match w.closeFail c.stdout with
  | some e => (.error e, tr ++ [.closeCall c.stdout])
  | none =>
  let tr := tr ++ [CEvent.closeCall c.stdout]
  match w.closeFail c.stderr with
  | some e => (.error e, tr ++ [.closeCall c.stderr])
  | none =>
  (.ok (), tr ++ [CEvent.closeCall c.stderr, CEvent.print "Closed old fds"])

/-- Is an event a direct system call (as opposed to a diagnostic print,
which goes through the formatting and stdout-locking machinery)? -/
def CEvent.isDirectSyscall : CEvent → Bool
  | .print _ => false
  | _ => true

/-- The system calls of a child-side trace, prints filtered out. -/
def sysEvents (tr : List CEvent) : List CEvent :=
  tr.filter CEvent.isDirectSyscall

/-- The seven system calls the hook is supposed to make, in the source's
order: setsid, `TIOCSCTTY` on the subordinate, then the five closes. -/
def hookSyscallOrder (c : HookCapture) : List CEvent :=
  [.setsid, .sctty c.pts_fd, .closeCall c.pt_fd, .closeCall c.pts_fd,
   .closeCall c.stdin, .closeCall c.stdout, .closeCall c.stderr]

/-- The outcome the world assigns to one hook system call. -/
def stepFail (w : ChildWorld) : CEvent → Option Nat
  | .setsid => w.setsidFail
  | .sctty _ => w.scttyFail
  | .closeCall fd => w.closeFail fd
  | .print _ => none

/-- Reference semantics of fail-fast sequencing: execute calls in order,
stopping right after the first one that fails. -/
def runUntilFail (w : ChildWorld) : List CEvent → List CEvent
  | [] => []
  | s :: rest =>
    match stepFail w s with
    | some _ => [s]
    | none => s :: runUntilFail w rest

/-- The errno of the first failing call of a call list, if any fails. -/
def firstFailure (w : ChildWorld) : List CEvent → Option Nat
  | [] => none
  | s :: rest =>
    match stepFail w s with
    | some e => some e
    | none => firstFailure w rest

/-- `a` occurs strictly before `b` somewhere in `l`. -/
def occursBefore {α : Type} (a b : α) (l : List α) : Prop :=
  ∃ l₁ l₂ l₃, l = l₁ ++ a :: l₂ ++ b :: l₃

/-- How process operations reach the wrapped handle from `Child`. -/
inductive DelegationMechanism
  | derefCoercion
  | explicitForwarding
deriving DecidableEq, Repr

/-- The mechanism the source implements (lines 133-145): `impl Deref for
Child` and `impl DerefMut for Child`, i.e. deref-coercion-based
structural delegation.  `Child` itself defines only `pty`, `pty_mut` and
`resize_pty`; it defines no forwarding method for wait/kill/status. -/
def childDelegation : DelegationMechanism := .derefCoercion

/-- `Deref::deref for Child` (source lines 133-139). -/
def Child.deref {C P : Type} (c : Child C P) : C := c.child

/-- `DerefMut::deref_mut for Child` (source lines 141-145). -/
def Child.derefMut {C P : Type} (c : Child C P) : C := c.child

/-- A setup world in which every OS call succeeds. -/
def wSetupOk : SetupWorld := ⟨none, none, none, none, none, none⟩

/-- A setup world whose second `dup` (the stdout duplicate) fails with
errno 24 (`EMFILE`), everything else succeeding. -/
def wDup1Fails : SetupWorld := ⟨none, none, none, none, some 24, none⟩

/-- A setup world whose pty creation fails with errno 12 (`ENOMEM`). -/
def wNewFails : SetupWorld := ⟨some 12, none, none, none, none, none⟩

/-- A setup world whose resize fails with errno 22 (`EINVAL`). -/
def wResizeFails : SetupWorld := ⟨none, some 22, none, none, none, none⟩

/-- A spawn world in which everything succeeds. -/
def wSpawnOk : SpawnWorld := ⟨wSetupOk, none, 7⟩

/-- A spawn world whose pty creation fails with errno 12. -/
def wSpawnNewFails : SpawnWorld := ⟨wNewFails, none, 7⟩

/-- A spawn world in which setup succeeds but `spawn_impl` fails with
OS error 11. -/
def wSpawnImplFails : SpawnWorld := ⟨wSetupOk, some 11, 7⟩

/-- A fresh builder with no stdio configuration and no hook. -/
def b0 : Builder := ⟨none, none, none, none⟩

/-- A builder on which stdin/stdout/stderr were already configured
before the `spawn_pty` call. -/
def bPreconfigured : Builder := ⟨some 90, some 91, some 92, none⟩

/-- A sample hook capture. -/
def capEx : HookCapture := ⟨0, 1, 2, 3, 4⟩

/-- A child world in which every OS call succeeds. -/
def wChildOk : ChildWorld := ⟨none, none, fun _ => none⟩

/-- A child world in which `setsid` fails with errno 1 (`EPERM`). -/
def wSetsidFails : ChildWorld := ⟨some 1, none, fun _ => none⟩

/-- C1: the pre-execution hook performs, in this exact order, (1) setsid,
(2) controlling-terminal assignment on the subordinate descriptor,
(3) close of the controlling-side and original subordinate descriptors,
(4) close of the three stdio duplicates; in every world the system calls
actually executed are exactly the longest fail-fast prefix of that
sequence (no call runs before all earlier ones have succeeded), and the
hook succeeds exactly when every call in the sequence succeeds. -/
theorem preExec_runs_steps_in_order (w : ChildWorld) (c : HookCapture) :
    sysEvents (pre_exec w c).2 = runUntilFail w (hookSyscallOrder c)
    ∧ ((pre_exec w c).1 = .ok () ↔
        (hookSyscallOrder c).all (fun s => (stepFail w s).isNone)) := by
  rcases h1 : w.setsidFail with _ | e1 <;>
  rcases h2 : w.scttyFail with _ | e2 <;>
  rcases h3 : w.closeFail c.pt_fd with _ | e3 <;>
  rcases h4 : w.closeFail c.pts_fd with _ | e4 <;>
  rcases h5 : w.closeFail c.stdin with _ | e5 <;>
  rcases h6 : w.closeFail c.stdout with _ | e6 <;>
  rcases h7 : w.closeFail c.stderr with _ | e7 <;>
  simp [pre_exec, sysEvents, runUntilFail, hookSyscallOrder, stepFail,
    CEvent.isDirectSyscall, h1, h2, h3, h4, h5, h6, h7]

/-- C7: for every failure inside the pre-execution hook (setsid,
controlling-terminal assignment, or any of the five closes), the error
the hook returns is precisely the OS errno of the first system call that
failed. -/
theorem preExec_error_carries_errno (w : ChildWorld) (c : HookCapture)
    (e : Nat) :
    (pre_exec w c).1 = .error e ↔
      firstFailure w (hookSyscallOrder c) = some e := by
  rcases h1 : w.setsidFail with _ | e1 <;>
  rcases h2 : w.scttyFail with _ | e2 <;>
  rcases h3 : w.closeFail c.pt_fd with _ | e3 <;>
  rcases h4 : w.closeFail c.pts_fd with _ | e4 <;>
  rcases h5 : w.closeFail c.stdin with _ | e5 <;>
  rcases h6 : w.closeFail c.stdout with _ | e6 <;>
  rcases h7 : w.closeFail c.stderr with _ | e7 <;>
  simp [pre_exec, firstFailure, hookSyscallOrder, stepFail,
    h1, h2, h3, h4, h5, h6, h7]

/-- C3 (evidence of the divergence): every execution of the pre-execution
hook, whatever the captured descriptors and syscall outcomes, performs an
operation that is not a direct system call, namely the diagnostic
`println!` writes (which format through the locking, allocating stdout
machinery).  This contradicts the claim that every operation in the hook
is a direct system call. -/
theorem preExec_performs_println (w : ChildWorld) (c : HookCapture) :
    ∃ ev ∈ (pre_exec w c).2, CEvent.isDirectSyscall ev = false := by
  refine ⟨CEvent.print "Started pre-exec", ?_, rfl⟩
  rcases h1 : w.setsidFail with _ | e1 <;>
  rcases h2 : w.scttyFail with _ | e2 <;>
  rcases h3 : w.closeFail c.pt_fd with _ | e3 <;>
  rcases h4 : w.closeFail c.pts_fd with _ | e4 <;>
  rcases h5 : w.closeFail c.stdin with _ | e5 <;>
  rcases h6 : w.closeFail c.stdout with _ | e6 <;>
  rcases h7 : w.closeFail c.stderr with _ | e7 <;>
  simp [pre_exec, h1, h2, h3, h4, h5, h6, h7]

/-- C2 (counterexample): with the second duplication failing (errno 24)
and everything before it succeeding, `setup_pty` starting from an empty
table returns the duplication error while the first duplicated
descriptor (fd 2, the stdin duplicate of the subordinate side) is still
open: a descriptor duplicated before the failing call is not released
before the error is returned. -/
theorem setupPty_dup_failure_leaks_counterexample :
    (setup_pty wDup1Fails none fd0).result = .error (Error.SpawnNix 24)
    ∧ dupCount (setup_pty wDup1Fails none fd0).trace = 2
    ∧ (setup_pty wDup1Fails none fd0).fds.table = [(2, Obj.ptsDevice)]
    ∧ (setup_pty wDup1Fails none fd0).fds.table ≠ [] := by decide

/-- C2 (amended): on any `setup_pty` failure before the duplications
(pty creation, resize, subordinate-handle acquisition) every descriptor
created so far is released before the error is returned; on a
duplication failure the pty pair and the subordinate handle are released
via destructors, but the raw descriptors duplicated before the failing
call are not closed — exactly the earlier duplicates (all referring to
the subordinate device) remain open when the error is returned. -/
theorem setupPty_release_on_failure_amended (w : SetupWorld)
    (size : Option Size) (e : Error)
    (h : (setup_pty w size fd0).result = .error e) :
    (e.isDup = false → (setup_pty w size fd0).fds.table = [])
    ∧ (e.isDup = true →
        (setup_pty w size fd0).fds.table.length + 1 =
          dupCount (setup_pty w size fd0).trace
        ∧ ∀ p ∈ (setup_pty w size fd0).fds.table, p.2 = Obj.ptsDevice) := by
  obtain ⟨nf, rf, pf, d0f, d1f, d2f⟩ := w
  rcases size with _ | sz <;>
  rcases nf with _ | e0 <;> rcases rf with _ | er0 <;>
  rcases pf with _ | ep0 <;> rcases d0f with _ | d0 <;>
  rcases d1f with _ | d1 <;> rcases d2f with _ | d2 <;>
  simp [setup_pty, setup_pty_pts, setup_pty_dups, fd0, FdState.alloc,
    FdState.closeFd, FdState.dupFd, FdState.lookup, dupCount] at h ⊢ <;>
  subst h <;>
  simp [Error.isDup]

/-- C2 (witness): the amended statement applied to the world whose
second duplication fails with errno 24. -/
theorem setupPty_release_on_failure_amended_witness :
    (setup_pty wDup1Fails none fd0).result = .error (Error.SpawnNix 24)
    ∧ (((Error.SpawnNix 24).isDup = false →
          (setup_pty wDup1Fails none fd0).fds.table = [])
       ∧ ((Error.SpawnNix 24).isDup = true →
          (setup_pty wDup1Fails none fd0).fds.table.length + 1 =
            dupCount (setup_pty wDup1Fails none fd0).trace
          ∧ ∀ p ∈ (setup_pty wDup1Fails none fd0).fds.table,
              p.2 = Obj.ptsDevice)) :=
  ⟨by decide,
   setupPty_release_on_failure_amended wDup1Fails none
     (Error.SpawnNix 24) (by decide)⟩

/-- C5: whenever `setup_pty` succeeds — for any size argument, present or
absent — exactly three duplications were performed, and the returned
stdin/stdout/stderr descriptors are pairwise distinct, distinct from the
original subordinate descriptor, and each refers to the subordinate
device (an independent duplicate of the subordinate handle). -/
theorem setupPty_creates_three_dups (w : SetupWorld) (size : Option Size)
    (pt pts i o er : Nat) (s1 : FdState) (tr : List SEvent)
    (h : setup_pty w size fd0 = ⟨.ok (pt, pts, i, o, er), s1, tr⟩) :
    dupCount tr = 3
    ∧ i ≠ o ∧ i ≠ er ∧ o ≠ er ∧ i ≠ pts ∧ o ≠ pts ∧ er ≠ pts
    ∧ s1.lookup i = some Obj.ptsDevice
    ∧ s1.lookup o = some Obj.ptsDevice
    ∧ s1.lookup er = some Obj.ptsDevice
    ∧ s1.lookup pts = some Obj.ptsDevice := by
  obtain ⟨nf, rf, pf, d0f, d1f, d2f⟩ := w
  rcases size with _ | sz <;>
  rcases nf with _ | e0 <;> rcases rf with _ | er0 <;>
  rcases pf with _ | ep0 <;> rcases d0f with _ | d0 <;>
  rcases d1f with _ | d1 <;> rcases d2f with _ | d2 <;>
  simp [setup_pty, setup_pty_pts, setup_pty_dups, fd0, FdState.alloc,
    FdState.closeFd, FdState.dupFd, FdState.lookup] at h <;>
  obtain ⟨⟨rfl, rfl, rfl, rfl, rfl⟩, rfl, rfl⟩ := h <;>
  simp [dupCount, FdState.lookup]

/-- C5 (witness): the all-success world, with no size requested. -/
theorem setupPty_creates_three_dups_witness :
    dupCount [SEvent.create, SEvent.pts, SEvent.dup 1, SEvent.dup 1, SEvent.dup 1] = 3
    ∧ (2 : Nat) ≠ 3 ∧ (2 : Nat) ≠ 4 ∧ (3 : Nat) ≠ 4
    ∧ (2 : Nat) ≠ 1 ∧ (3 : Nat) ≠ 1 ∧ (4 : Nat) ≠ 1
    ∧ FdState.lookup ⟨5, [(0, Obj.ptDevice), (1, Obj.ptsDevice), (2, Obj.ptsDevice), (3, Obj.ptsDevice), (4, Obj.ptsDevice)]⟩ 2 = some Obj.ptsDevice
    ∧ FdState.lookup ⟨5, [(0, Obj.ptDevice), (1, Obj.ptsDevice), (2, Obj.ptsDevice), (3, Obj.ptsDevice), (4, Obj.ptsDevice)]⟩ 3 = some Obj.ptsDevice
    ∧ FdState.lookup ⟨5, [(0, Obj.ptDevice), (1, Obj.ptsDevice), (2, Obj.ptsDevice), (3, Obj.ptsDevice), (4, Obj.ptsDevice)]⟩ 4 = some Obj.ptsDevice
    ∧ FdState.lookup ⟨5, [(0, Obj.ptDevice), (1, Obj.ptsDevice), (2, Obj.ptsDevice), (3, Obj.ptsDevice), (4, Obj.ptsDevice)]⟩ 1 = some Obj.ptsDevice :=
  setupPty_creates_three_dups wSetupOk none 0 1 2 3 4
    ⟨5, [(0, Obj.ptDevice), (1, Obj.ptsDevice), (2, Obj.ptsDevice), (3, Obj.ptsDevice), (4, Obj.ptsDevice)]⟩
    [SEvent.create, SEvent.pts, SEvent.dup 1, SEvent.dup 1, SEvent.dup 1] (by decide)

/-- C6: if a size is supplied (and pty creation succeeded), the resize is
the very next operation after pty creation — before the subordinate
handle is obtained and before any duplication — and its failure fails
the whole setup with the resize error, with no later operation having
run; if no size is supplied, resize is never invoked. -/
theorem setupPty_resize_timing (w : SetupWorld) :
    (∀ sz : Size, w.newFail = none →
        (setup_pty w (some sz) fd0).trace.take 2 =
            [SEvent.create, SEvent.resize sz]
        ∧ (∀ e, w.resizeFail = some e →
            (setup_pty w (some sz) fd0).result = .error (Error.Resize e)
            ∧ (setup_pty w (some sz) fd0).trace =
                [SEvent.create, SEvent.resize sz]))
    ∧ (∀ sz : Size, SEvent.resize sz ∉ (setup_pty w none fd0).trace) := by
  obtain ⟨nf, rf, pf, d0f, d1f, d2f⟩ := w
  constructor
  · rintro sz rfl
    rcases rf with _ | er0 <;>
    rcases pf with _ | ep0 <;>
    rcases d0f with _ | d0 <;>
    rcases d1f with _ | d1 <;>
    rcases d2f with _ | d2 <;>
    simp [setup_pty, setup_pty_pts, setup_pty_dups, fd0,
      FdState.alloc, FdState.dupFd, FdState.lookup]
  · intro sz
    rcases nf with _ | e0 <;>
    rcases pf with _ | ep0 <;>
    rcases d0f with _ | d0 <;>
    rcases d1f with _ | d1 <;>
    rcases d2f with _ | d2 <;>
    simp [setup_pty, setup_pty_pts, setup_pty_dups, fd0,
      FdState.alloc, FdState.dupFd, FdState.lookup]

/-- C6 (witness): the resize-failing world with size 24x80. -/
theorem setupPty_resize_timing_witness :
    wResizeFails.newFail = none
    ∧ wResizeFails.resizeFail = some 22
    ∧ (setup_pty wResizeFails (some ⟨24, 80⟩) fd0).result =
        .error (Error.Resize 22)
    ∧ (setup_pty wResizeFails (some ⟨24, 80⟩) fd0).trace =
        [SEvent.create, SEvent.resize ⟨24, 80⟩] :=
  ⟨by decide, by decide,
   ((setupPty_resize_timing wResizeFails).1 ⟨24, 80⟩ (by decide)).2 22
     (by decide)⟩

/-- C4: for every size argument, a failure of pty setup is returned by
`spawn_pty` unchanged and the underlying spawn primitive is never
invoked (no `spawnCall` event occurs); a failure of the spawn primitive
itself is wrapped as `Error::Spawn`; and no `Child` value is produced on
any failure path — a `Child` result implies both setup and the spawn
primitive succeeded. -/
theorem spawnPty_error_paths (w : SpawnWorld) (b : Builder)
    (size : Option Size) (s0 : FdState) :
    (∀ e, (setup_pty w.setup size s0).result = .error e →
        (spawn_pty w b size s0).result = .error e
        ∧ PEvent.spawnCall ∉ (spawn_pty w b size s0).trace)
    ∧ (∀ v, (setup_pty w.setup size s0).result = .ok v →
        ∀ ioe, w.spawnFail = some ioe →
          (spawn_pty w b size s0).result = .error (Error.Spawn ioe))
    ∧ (∀ ch, (spawn_pty w b size s0).result = .ok ch →
        w.spawnFail = none
        ∧ ∃ v, (setup_pty w.setup size s0).result = .ok v) := by
  rcases hso : setup_pty w.setup size s0 with ⟨res, s1, tr⟩
  rcases res with e0 | v0
  · refine ⟨?_, ?_, ?_⟩ <;> simp [spawn_pty, hso, List.mem_map]
  · obtain ⟨pt, pts, i, o, er⟩ := v0
    rcases hsf : w.spawnFail with _ | ioe <;>
    refine ⟨?_, ?_, ?_⟩ <;> simp [spawn_pty, hso, hsf]

/-- C4 (witness): a world whose pty creation fails with errno 12;
`spawn_pty` returns that error unchanged and never reaches the spawn
primitive. -/
theorem spawnPty_error_paths_witness :
    (setup_pty wSpawnNewFails.setup none fd0).result =
        .error (Error.CreatePty 12)
    ∧ ((spawn_pty wSpawnNewFails b0 none fd0).result =
          .error (Error.CreatePty 12)
       ∧ PEvent.spawnCall ∉ (spawn_pty wSpawnNewFails b0 none fd0).trace) :=
  ⟨by decide,
   (spawnPty_error_paths wSpawnNewFails b0 none fd0).1
     (Error.CreatePty 12) (by decide)⟩

/-- C9: whenever pty setup succeeds, `spawn_pty` assigns the three
freshly duplicated subordinate descriptors as the builder's
stdin/stdout/stderr — for every builder, whatever stdio configuration it
carried before the call, so any previous configuration is replaced — and
registers the hook capturing exactly the five descriptor numbers. -/
theorem spawnPty_overrides_builder_stdio (w : SpawnWorld) (b : Builder)
    (size : Option Size) (s0 : FdState) (pt pts i o er : Nat)
    (h : (setup_pty w.setup size s0).result = .ok (pt, pts, i, o, er)) :
    (spawn_pty w b size s0).builder.stdinCfg = some i
    ∧ (spawn_pty w b size s0).builder.stdoutCfg = some o
    ∧ (spawn_pty w b size s0).builder.stderrCfg = some er
    ∧ (spawn_pty w b size s0).builder.preExec = some ⟨pt, pts, i, o, er⟩ := by
  rcases hso : setup_pty w.setup size s0 with ⟨res, s1, tr⟩
  rw [hso] at h
  simp at h
  subst h
  rcases hsf : w.spawnFail with _ | ioe <;>
  simp [spawn_pty, hso, hsf, Builder.std_fds, Builder.pre_exec_impl]

/-- C9 (witness): a preconfigured builder (stdio 90/91/92) has its
configuration replaced by the duplicates 2/3/4. -/
theorem spawnPty_overrides_builder_stdio_witness :
    (setup_pty wSpawnOk.setup none fd0).result = .ok (0, 1, 2, 3, 4)
    ∧ ((spawn_pty wSpawnOk bPreconfigured none fd0).builder.stdinCfg = some 2
       ∧ (spawn_pty wSpawnOk bPreconfigured none fd0).builder.stdoutCfg =
           some 3
       ∧ (spawn_pty wSpawnOk bPreconfigured none fd0).builder.stderrCfg =
           some 4
       ∧ (spawn_pty wSpawnOk bPreconfigured none fd0).builder.preExec =
           some ⟨0, 1, 2, 3, 4⟩) :=
  ⟨by decide,
   spawnPty_overrides_builder_stdio wSpawnOk bPreconfigured none fd0
     0 1 2 3 4 (by decide)⟩

/-- C10 (counterexample): a hook execution in which `setsid` fails with
errno 1 writes only "Started pre-exec"; neither "Closing old fds" nor
"Closed old fds" is written, refuting the claim that every execution of
the hook writes all three diagnostic lines. -/
theorem hook_prints_counterexample :
    (pre_exec wSetsidFails capEx).2 =
      [CEvent.print "Started pre-exec", CEvent.setsid]
    ∧ CEvent.print "Closing old fds" ∉ (pre_exec wSetsidFails capEx).2
    ∧ CEvent.print "Closed old fds" ∉ (pre_exec wSetsidFails capEx).2 := by
  decide

/-- C10 (amended): every `spawn_pty` call that passes pty setup writes
"Setup pty" and "Got fds" to the parent's stdout before invoking the
spawn primitive; every execution of the pre-exec hook writes
"Started pre-exec"; and every execution on which the hook succeeds also
writes "Closing old fds" and "Closed old fds" (a failing execution stops
at the failed call and omits the lines after it). -/
theorem diagnostic_prints_amended (w : SpawnWorld) (b : Builder)
    (size : Option Size) (s0 : FdState) (wc : ChildWorld) (c : HookCapture)
    (h : (setup_pty w.setup size s0).result.isOk = true) :
    occursBefore (PEvent.print "Setup pty") PEvent.spawnCall
        (spawn_pty w b size s0).trace
    ∧ occursBefore (PEvent.print "Got fds") PEvent.spawnCall
        (spawn_pty w b size s0).trace
    ∧ CEvent.print "Started pre-exec" ∈ (pre_exec wc c).2
    ∧ ((pre_exec wc c).1 = .ok () →
        CEvent.print "Closing old fds" ∈ (pre_exec wc c).2
        ∧ CEvent.print "Closed old fds" ∈ (pre_exec wc c).2) := by
  rcases hso : setup_pty w.setup size s0 with ⟨res, s1, tr⟩
  rw [hso] at h
  rcases res with e0 | v0
  · simp [Except.isOk, Except.toBool] at h
  · obtain ⟨pt, pts, i, o, er⟩ := v0
    refine ⟨?_, ?_, ?_, ?_⟩
    · rcases hsf : w.spawnFail with _ | ioe <;>
      exact ⟨tr.map PEvent.setupEv,
        [PEvent.print "Got fds", PEvent.stdFds i o er,
         PEvent.registerPreExec], [],
        by simp [spawn_pty, hso, hsf]⟩
    · rcases hsf : w.spawnFail with _ | ioe <;>
      exact ⟨tr.map PEvent.setupEv ++ [PEvent.print "Setup pty"],
        [PEvent.stdFds i o er, PEvent.registerPreExec], [],
        by simp [spawn_pty, hso, hsf]⟩
    · rcases h1 : wc.setsidFail with _ | e1 <;>
      rcases h2 : wc.scttyFail with _ | e2 <;>
      rcases h3 : wc.closeFail c.pt_fd with _ | e3 <;>
      rcases h4 : wc.closeFail c.pts_fd with _ | e4 <;>
      rcases h5 : wc.closeFail c.stdin with _ | e5 <;>
      rcases h6 : wc.closeFail c.stdout with _ | e6 <;>
      rcases h7 : wc.closeFail c.stderr with _ | e7 <;>
      simp [pre_exec, h1, h2, h3, h4, h5, h6, h7]
    · rcases h1 : wc.setsidFail with _ | e1 <;>
      rcases h2 : wc.scttyFail with _ | e2 <;>
      rcases h3 : wc.closeFail c.pt_fd with _ | e3 <;>
      rcases h4 : wc.closeFail c.pts_fd with _ | e4 <;>
      rcases h5 : wc.closeFail c.stdin with _ | e5 <;>
      rcases h6 : wc.closeFail c.stdout with _ | e6 <;>
      rcases h7 : wc.closeFail c.stderr with _ | e7 <;>
      simp [pre_exec, h1, h2, h3, h4, h5, h6, h7]

/-- C10 (witness): the all-success worlds. -/
theorem diagnostic_prints_amended_witness :
    (setup_pty wSpawnOk.setup none fd0).result.isOk = true
    ∧ (occursBefore (PEvent.print "Setup pty") PEvent.spawnCall
          (spawn_pty wSpawnOk b0 none fd0).trace
       ∧ occursBefore (PEvent.print "Got fds") PEvent.spawnCall
          (spawn_pty wSpawnOk b0 none fd0).trace
       ∧ CEvent.print "Started pre-exec" ∈ (pre_exec wChildOk capEx).2
       ∧ ((pre_exec wChildOk capEx).1 = .ok () →
          CEvent.print "Closing old fds" ∈ (pre_exec wChildOk capEx).2
          ∧ CEvent.print "Closed old fds" ∈ (pre_exec wChildOk capEx).2)) :=
  ⟨by decide,
   diagnostic_prints_amended wSpawnOk b0 none fd0 wChildOk capEx
     (by decide)⟩

/-- C8 (counterexample): the source reaches process operations through
`impl Deref`/`impl DerefMut` for `Child` (implicit structural
delegation, lines 133-145), not through explicit forwarding accessor
methods: the implemented mechanism is not explicit forwarding. -/
theorem child_delegation_not_explicit_counterexample :
    childDelegation ≠ DelegationMechanism.explicitForwarding := by decide

/-- C8 (amended): transparent delegation of process operations from the
`Child` handle to the owned process handle is provided, but it is
implemented through `Deref`/`DerefMut` implementations that hand back
the owned process handle (implicit structural delegation), not as
explicit forwarding accessor methods. -/
theorem child_delegation_via_deref :
    childDelegation = DelegationMechanism.derefCoercion
    ∧ ∀ c : Child Nat Nat, c.deref = c.child ∧ c.derefMut = c.child :=
  ⟨rfl, fun _ => ⟨rfl, rfl⟩⟩

end PtyProcess
